import Mathlib

/-! Shallow embedding of the CGPricing pricing recommendation engine
(repository file `src/ml_engine.py`), together with theorems settling
the specification claims about it.

Python floats are modelled as exact rationals (`ℚ`).  Python's `round`
builtin (banker's rounding) is modelled by `pyRound`.  The trained
gradient-boosting regressor is a black box: it is modelled as an
arbitrary function from the feature vector to a rational adjustment,
passed as a parameter.  A Python `ZeroDivisionError` raised by
`get_recommendation` is modelled by returning `none`.
-/

namespace CGPricing

/-- Python's `str.lower()` (ASCII case folding, which covers every string
the engine compares against). -/
def pyLower (s : String) : String := ⟨s.data.map Char.toLower⟩

/-- Tier configuration record, mirroring the `TierConfig` dataclass. -/
structure TierConfig where
  tierName : String
  min_margin_pct : ℚ
  change_cap_pct : ℚ
deriving DecidableEq

/-- The `TIER_CONFIGS` dict: key lookup returning `none` for unknown keys. -/
def TIER_CONFIGS (key : String) : Option TierConfig :=
  if key = "low" then some ⟨"low", 0.10, 0.10⟩
  else if key = "mid" then some ⟨"mid", 0.15, 0.05⟩
  else if key = "high" then some ⟨"high", 0.20, 0.07⟩
  else if key = "premium" then some ⟨"premium", 0.25, 0.05⟩
  else none

/-- The entry the source uses as the fallback default, i.e. the value
stored under the key "mid" in the dict. -/
def midTierConfig : TierConfig := ⟨"mid", 0.15, 0.05⟩

/-- The idiom `TIER_CONFIGS.get(tier.lower(), TIER_CONFIGS["mid"])`
used at every tier lookup site in the source. -/
def tierConfigOrMid (tier : String) : TierConfig :=
  (TIER_CONFIGS (pyLower tier)).getD midTierConfig

/-- The `PricingRules` dataclass with its default field values. -/
structure PricingRules where
  max_above_market_pct : ℚ
  global_change_cap_pct : ℚ
  demand_up_min : ℚ
  demand_up_max : ℚ
  demand_down_max : ℚ
  market_band_low_pct : ℚ
  market_band_high_pct : ℚ
  match_drop_fraction : ℚ
  out_of_stock_bump_min : ℚ
  out_of_stock_bump_max : ℚ
  busy_season_up_min : ℚ
  busy_season_up_max : ℚ
  slow_season_down_min : ℚ
  slow_season_down_max : ℚ
  offpeak_discount_min : ℚ
  offpeak_discount_max : ℚ
  end_of_month_extra_discount : ℚ
  launch_discount : ℚ
  growth_increase : ℚ
  maturity_adjustment : ℚ
  decline_discount : ℚ
deriving DecidableEq

/-- `DEFAULT_RULES = PricingRules()` with every default value. -/
def DEFAULT_RULES : PricingRules :=
  { max_above_market_pct := 0.15
    global_change_cap_pct := 0.07
    demand_up_min := 0.05
    demand_up_max := 0.10
    demand_down_max := 0.10
    market_band_low_pct := -0.10
    market_band_high_pct := 0.15
    match_drop_fraction := 0.5
    out_of_stock_bump_min := 0.05
    out_of_stock_bump_max := 0.10
    busy_season_up_min := 0.10
    busy_season_up_max := 0.15
    slow_season_down_min := 0.10
    slow_season_down_max := 0.20
    offpeak_discount_min := 0.02
    offpeak_discount_max := 0.03
    end_of_month_extra_discount := 0.05
    launch_discount := 0.10
    growth_increase := 0.05
    maturity_adjustment := 0.00
    decline_discount := 0.20 }

/-- Helper `_clamp(value, low, high) = max(low, min(high, value))`. -/
def _clamp (value low high : ℚ) : ℚ := max low (min high value)

/-- Helper `_pct_change(old, new)`: guarded relative change. -/
def _pct_change (old new : ℚ) : ℚ :=
  if old = 0 then 0 else (new - old) / old

/-- A smart tag: (emoji, label, color) triple from `TAG_DEFINITIONS`. -/
structure SmartTag where
  emoji : String
  label : String
  color : String
deriving DecidableEq

def tag_new_arrival : SmartTag := ⟨"🆕", "New Arrival", "#10B981"⟩
def tag_declining : SmartTag := ⟨"📉", "Declining", "#EF4444"⟩
def tag_competitor_oos : SmartTag := ⟨"🏆", "Competitor Out-of-Stock", "#3B82F6"⟩
def tag_high_demand : SmartTag := ⟨"🔥", "High Demand", "#F59E0B"⟩
def tag_margin_watch : SmartTag := ⟨"⚠️", "Margin Watch", "#EF4444"⟩
def tag_price_leader : SmartTag := ⟨"👑", "Price Leader", "#C4437C"⟩

/-- Lifecycle check of `generate_tags`: an `if/elif` pair, so at most one
of the two lifecycle tags is emitted (`lifecycle and lifecycle.lower() == ...`,
where a Python string is truthy iff non-empty). -/
def lifecycleCheck (lifecycle : String) : List SmartTag :=
  if lifecycle ≠ "" ∧ pyLower lifecycle = "launch" then [tag_new_arrival]
  else if lifecycle ≠ "" ∧ pyLower lifecycle = "decline" then [tag_declining]
  else []

/-- Competitor out-of-stock check of `generate_tags`. -/
def oosCheck (market_oos : Bool) : List SmartTag :=
  if market_oos then [tag_competitor_oos] else []

/-- Demand check of `generate_tags`. -/
def demandCheck (demand_index : ℚ) : List SmartTag :=
  if demand_index > 1.2 then [tag_high_demand] else []

/-- Competitive-position check of `generate_tags`. -/
def leaderCheck (our_price competitor_avg : ℚ) : List SmartTag :=
  if competitor_avg > 0 ∧ our_price < competitor_avg * 0.95 then [tag_price_leader] else []

/-- Margin-warning check of `generate_tags` (uses the tier's minimum margin). -/
def marginCheck (margin_pct : ℚ) (tier : String) : List SmartTag :=
  if margin_pct < (tierConfigOrMid tier).min_margin_pct * 100 then [tag_margin_watch] else []

/-- `SmartTagEngine.generate_tags`: the five checks appended in source order
(lifecycle, out-of-stock, demand, competitive position, margin warning). -/
def SmartTagEngine.generate_tags (lifecycle : String)
    (demand_index margin_pct our_price competitor_avg : ℚ)
    (tier : String) (market_oos : Bool) : List SmartTag :=
  lifecycleCheck lifecycle ++ oosCheck market_oos ++ demandCheck demand_index
    ++ leaderCheck our_price competitor_avg ++ marginCheck margin_pct tier

/-- Numeric feature vector handed to the gradient-boosting regressor. -/
structure MLFeatures where
  base_price : ℚ
  tier_encoded : ℕ
  category_encoded : ℕ
  lifecycle_encoded : ℕ
  competitor_avg : ℚ
  price_vs_competitor : ℚ
  market_oos : ℚ
  demand_index : ℚ
deriving DecidableEq

/-- Tier label encoding: `LabelEncoder` fitted on Low/Mid/High/Premium sorts
its classes, giving High=0, Low=1, Mid=2, Premium=3; the bare `except`
branch in `predict_adjustment` maps anything else to 1. -/
def tierEncode (tier : String) : ℕ :=
  if tier = "High" then 0
  else if tier = "Low" then 1
  else if tier = "Mid" then 2
  else if tier = "Premium" then 3
  else 1

/-- Category label encoding (sorted classes: Chemicals=0, Equipment=1,
Other=2, Paper=3), falling back to 3 on failure. -/
def categoryEncode (category : String) : ℕ :=
  if category = "Chemicals" then 0
  else if category = "Equipment" then 1
  else if category = "Other" then 2
  else if category = "Paper" then 3
  else 3

/-- Lifecycle label encoding (sorted classes: Clearance=0, Decline=1,
Growth=2, Launch=3, Maturity=4), falling back to 2 on failure. -/
def lifecycleEncode (lifecycle : String) : ℕ :=
  if lifecycle = "Clearance" then 0
  else if lifecycle = "Decline" then 1
  else if lifecycle = "Growth" then 2
  else if lifecycle = "Launch" then 3
  else if lifecycle = "Maturity" then 4
  else 2

/-- `GradientBoostingPricingModel.predict_adjustment`: encode the
categoricals (with fallbacks), guard the competitor-ratio division, and
query the regressor, which is passed in as a black-box function. -/
def predict_adjustment (model : MLFeatures → ℚ) (base_price : ℚ)
    (tier category lifecycle : String) (competitor_avg : ℚ)
    (market_oos : Bool) (demand_index : ℚ) : ℚ :=
  let price_vs_comp := if competitor_avg > 0 then base_price / competitor_avg else 1
  model ⟨base_price, tierEncode tier, categoryEncode category,
         lifecycleEncode lifecycle, competitor_avg, price_vs_comp,
         if market_oos then 1 else 0, demand_index⟩

/-- `apply_demand_adjustment`. -/
def apply_demand_adjustment (price demand_index : ℚ) (rules : PricingRules) : ℚ :=
  if demand_index > 1.0 then
    let intensity := _clamp (demand_index - 1.0) 0.0 1.0
    let uplift_pct := rules.demand_up_min + intensity * (rules.demand_up_max - rules.demand_up_min)
    price * (1 + uplift_pct)
  else if demand_index < 1.0 then
    let intensity := _clamp (1.0 - demand_index) 0.0 1.0
    let discount_pct := intensity * rules.demand_down_max
    price * (1 - discount_pct)
  else
    price

/-- `apply_lifecycle_adjustment`. -/
def apply_lifecycle_adjustment (price : ℚ) (lifecycle : String) (rules : PricingRules) : ℚ :=
  if lifecycle = "" then price
  else
    let lc := pyLower lifecycle
    if lc = "launch" then price * (1 - rules.launch_discount)
    else if lc = "growth" then price * (1 + rules.growth_increase)
    else if lc = "maturity" then price * (1 + rules.maturity_adjustment)
    else if lc = "decline" then price * (1 - rules.decline_discount)
    else price

/-- `apply_competition_adjustment`: the competitor average is accepted but
only the out-of-stock flag moves the price. -/
def apply_competition_adjustment (price competitor_avg : ℚ) (market_oos : Bool)
    (rules : PricingRules) : ℚ :=
  if market_oos then
    let bump := (rules.out_of_stock_bump_min + rules.out_of_stock_bump_max) / 2
    price * (1 + bump)
  else
    price

/-- `enforce_boundaries`: minimum margin per tier (unknown tier falls back
to the "mid" configuration). -/
def enforce_boundaries (price cost : ℚ) (tier : String) (rules : PricingRules) : ℚ :=
  let tier_config := tierConfigOrMid tier
  let min_price := cost * (1 + tier_config.min_margin_pct)
  max price min_price

/-- `calculate_rules_price`: demand, lifecycle and competition stages in
order, then boundary enforcement, all with `DEFAULT_RULES`. -/
def calculate_rules_price (base_price cost : ℚ) (tier lifecycle : String)
    (demand_index competitor_avg : ℚ) (market_oos : Bool) : ℚ :=
  let rules := DEFAULT_RULES
  let price := base_price
  let price := apply_demand_adjustment price demand_index rules
  let price := apply_lifecycle_adjustment price lifecycle rules
  let price := apply_competition_adjustment price competitor_avg market_oos rules
  let price := enforce_boundaries price cost tier rules
  price

/-- Python's `round` builtin on a rational: round half to even. -/
def pyRound (x : ℚ) : ℤ :=
  if x - ⌊x⌋ = 1 / 2 then (if ⌊x⌋ % 2 = 0 then ⌊x⌋ else ⌊x⌋ + 1)
  else round x

/-- `round(x, 2)`. -/
def round2 (x : ℚ) : ℚ := (pyRound (x * 100) : ℚ) / 100

/-- `round(x, 1)`. -/
def round1 (x : ℚ) : ℚ := (pyRound (x * 10) : ℚ) / 10

/-- The recommendation record returned by `PricingEngine.get_recommendation`
(the `rule_adjustments` sub-dict is flattened into four booleans). -/
structure Recommendation where
  product_name : String
  recommended_price : ℚ
  rules_price : ℚ
  ml_price : ℚ
  ml_adjustment_pct : ℚ
  price_change_pct : ℚ
  margin_pct : ℚ
  smart_tags : List SmartTag
  tier : String
  demand_index : ℚ
  competitor_avg : ℚ
  demand_adj : Bool
  lifecycle_adj : Bool
  market_oos_adj : Bool
  margin_floor_applied : Bool
deriving DecidableEq

/-- Lines 462–464 of the source: blend the rule adjustment and the model
adjustment linearly and apply the blended adjustment to the base price.
This is the hybrid price before the margin floor is re-enforced. -/
def hybridPricePre (ml_weight base_price rules_price ml_adjustment : ℚ) : ℚ :=
  let rules_adjustment := (rules_price - base_price) / base_price
  let blended_adjustment := (1 - ml_weight) * rules_adjustment + ml_weight * ml_adjustment
  base_price * (1 + blended_adjustment)

/-- A pricing engine instance: its blend weight and its trained regressor
(kept abstract as a function on feature vectors). -/
structure PricingEngine where
  ml_weight : ℚ
  ml_model : MLFeatures → ℚ

/-- `PricingEngine.get_recommendation`.  The division
`(rules_price - base_price) / base_price` is unguarded in the source, so a
call with `base_price == 0` raises `ZeroDivisionError`; this is modelled by
returning `none`.  All other divisions in the body are guarded. -/
def PricingEngine.get_recommendation (self : PricingEngine) (product_name : String)
    (base_price cost : ℚ) (tier category lifecycle : String)
    (competitor_avg : ℚ) (market_oos : Bool) (demand_index : ℚ) :
    Option Recommendation :=
  if base_price = 0 then none
  else
    let rules_price := calculate_rules_price base_price cost tier lifecycle
      demand_index competitor_avg market_oos
    let ml_adjustment := predict_adjustment self.ml_model base_price tier category
      lifecycle competitor_avg market_oos demand_index
    let ml_price := base_price * (1 + ml_adjustment)
    let hybrid_price0 := hybridPricePre self.ml_weight base_price rules_price ml_adjustment
    let tier_config := tierConfigOrMid tier
    let min_price := cost * (1 + tier_config.min_margin_pct)
    let hybrid_price := max hybrid_price0 min_price
    let margin_pct := if hybrid_price > 0 then ((hybrid_price - cost) / hybrid_price) * 100 else 0
    let smart_tags := SmartTagEngine.generate_tags lifecycle demand_index margin_pct
      hybrid_price competitor_avg tier market_oos
    some
      { product_name := product_name
        recommended_price := round2 hybrid_price
        rules_price := round2 rules_price
        ml_price := round2 ml_price
        ml_adjustment_pct := round1 (ml_adjustment * 100)
        price_change_pct := round1 (((hybrid_price - base_price) / base_price) * 100)
        margin_pct := round1 margin_pct
        smart_tags := smart_tags
        tier := tier
        demand_index := demand_index
        competitor_avg := competitor_avg
        demand_adj := decide (demand_index ≠ 1.0)
        lifecycle_adj := decide (pyLower lifecycle ∈ (["launch", "growth", "decline"] : List String))
        market_oos_adj := market_oos
        margin_floor_applied := decide (hybrid_price = min_price) }

/-- `get_pricing_engine`: the module-level singleton factory, modelled with
explicit state passing.  The state is the global `_engine_instance`
(initially `none`); building an engine installs the black-box trained model
`gbModel` and the requested weight. -/
def get_pricing_engine (gbModel : MLFeatures → ℚ) (ml_weight : ℚ)
    (state : Option PricingEngine) : PricingEngine × Option PricingEngine :=
  match state with
  | none =>
      let e : PricingEngine := ⟨ml_weight, gbModel⟩
      (e, some e)
  | some e => (e, some e)

/-- A trivial stand-in regressor used to instantiate closed statements. -/
def zeroModel : MLFeatures → ℚ := fun _ => 0

/-- A concrete engine (weight 0, trivial regressor) for closed statements. -/
def testEngine : PricingEngine := ⟨0, zeroModel⟩

/-- The recommended price of a possibly-failed recommendation call. -/
def recPrice (o : Option Recommendation) : ℚ :=
  match o with
  | some r => r.recommended_price
  | none => 0

/-- The price-change-percentage field of a possibly-failed call. -/
def recChangePct (o : Option Recommendation) : ℚ :=
  match o with
  | some r => r.price_change_pct
  | none => 0

/-- Overwrite the echoed tier field of a recommendation record. -/
def setTier (t : String) (r : Recommendation) : Recommendation :=
  { r with tier := t }

/-! Section: Rounding facts -/

/-- Banker's rounding moves a rational by at most one half. -/
lemma pyRound_abs (x : ℚ) : |(pyRound x : ℚ) - x| ≤ 1 / 2 := by
  unfold pyRound
  split_ifs with h1 h2
  · rw [show ((⌊x⌋ : ℤ) : ℚ) - x = -(1/2) by linarith]
    rw [abs_neg, abs_of_nonneg] <;> norm_num
  · rw [show (((⌊x⌋ : ℤ) + 1 : ℤ) : ℚ) - x = 1/2 by push_cast; linarith]
    rw [abs_of_nonneg] <;> norm_num
  · rw [abs_sub_comm]
    exact abs_sub_round x

/-- Rounding to two decimals moves a value by at most half a cent. -/
lemma round2_abs (x : ℚ) : |round2 x - x| ≤ 1 / 200 := by
  unfold round2
  have h := pyRound_abs (x * 100)
  rw [show (pyRound (x * 100) : ℚ) / 100 - x = ((pyRound (x * 100) : ℚ) - x * 100) / 100 by ring,
    abs_div, show |(100 : ℚ)| = 100 by norm_num]
  linarith

/-- Rounding to one decimal moves a value by at most one twentieth. -/
lemma round1_abs (x : ℚ) : |round1 x - x| ≤ 1 / 20 := by
  unfold round1
  have h := pyRound_abs (x * 10)
  rw [show (pyRound (x * 10) : ℚ) / 10 - x = ((pyRound (x * 10) : ℚ) - x * 10) / 10 by ring,
    abs_div, show |(10 : ℚ)| = 10 by norm_num]
  linarith

/-- Rounding to two decimals loses at most half a cent downward. -/
lemma round2_ge_self_sub (x : ℚ) : x - 1/200 ≤ round2 x := by
  have h := round2_abs x
  rw [abs_le] at h
  linarith [h.1, h.2]

/-! Section: Stage structure of the rule pipeline -/

/-- The demand stage scales the incoming price by a factor of the demand index. -/
lemma apply_demand_mul (p d : ℚ) :
    apply_demand_adjustment p d DEFAULT_RULES = p * apply_demand_adjustment 1 d DEFAULT_RULES := by
  simp only [apply_demand_adjustment]
  split_ifs <;> ring

/-- The lifecycle stage scales the incoming price by a factor of the stage name. -/
lemma apply_lifecycle_mul (p : ℚ) (lc : String) :
    apply_lifecycle_adjustment p lc DEFAULT_RULES
      = p * apply_lifecycle_adjustment 1 lc DEFAULT_RULES := by
  simp only [apply_lifecycle_adjustment]
  split_ifs <;> ring

/-- The competition stage scales the incoming price by a factor of the flag. -/
lemma apply_comp_mul (p avg : ℚ) (oos : Bool) :
    apply_competition_adjustment p avg oos DEFAULT_RULES
      = p * apply_competition_adjustment 1 avg oos DEFAULT_RULES := by
  simp only [apply_competition_adjustment]
  split_ifs <;> ring

/-! Section: Monotonicity facts -/

lemma clamp01_nonneg (v : ℚ) : 0 ≤ _clamp v 0 1 := le_max_left 0 _

lemma clamp01_le_one (v : ℚ) : _clamp v 0 1 ≤ 1 :=
  max_le (by norm_num) (min_le_left _ _)

lemma clamp01_mono {v w : ℚ} (h : v ≤ w) : _clamp v 0 1 ≤ _clamp w 0 1 :=
  max_le_max le_rfl (min_le_min le_rfl h)

/-- The demand scaling factor is non-decreasing in the demand index. -/
lemma demand_factor_mono {d d' : ℚ} (h : d ≤ d') :
    apply_demand_adjustment 1 d DEFAULT_RULES ≤ apply_demand_adjustment 1 d' DEFAULT_RULES := by
  have c1 := clamp01_nonneg (d - 1)
  have c2 := clamp01_nonneg (d' - 1)
  have c3 := clamp01_nonneg (1 - d)
  have c4 := clamp01_nonneg (1 - d')
  have c5 := clamp01_le_one (d - 1)
  have c6 := clamp01_le_one (d' - 1)
  have c7 := clamp01_le_one (1 - d)
  have c8 := clamp01_le_one (1 - d')
  have m1 := clamp01_mono (show d - 1 ≤ d' - 1 by linarith)
  have m2 := clamp01_mono (show 1 - d' ≤ 1 - d by linarith)
  simp only [apply_demand_adjustment, DEFAULT_RULES]
  split_ifs <;> linarith

lemma apply_demand_mono (b : ℚ) (hb : 0 ≤ b) {d d' : ℚ} (h : d ≤ d') :
    apply_demand_adjustment b d DEFAULT_RULES ≤ apply_demand_adjustment b d' DEFAULT_RULES := by
  rw [apply_demand_mul b d, apply_demand_mul b d']
  exact mul_le_mul_of_nonneg_left (demand_factor_mono h) hb

lemma apply_lifecycle_mono (lc : String) {p p' : ℚ} (h : p ≤ p') :
    apply_lifecycle_adjustment p lc DEFAULT_RULES
      ≤ apply_lifecycle_adjustment p' lc DEFAULT_RULES := by
  simp only [apply_lifecycle_adjustment, DEFAULT_RULES]
  split_ifs <;> linarith

lemma apply_comp_mono (avg : ℚ) (oos : Bool) {p p' : ℚ} (h : p ≤ p') :
    apply_competition_adjustment p avg oos DEFAULT_RULES
      ≤ apply_competition_adjustment p' avg oos DEFAULT_RULES := by
  simp only [apply_competition_adjustment, DEFAULT_RULES]
  split_ifs <;> linarith

/-! Section: Concrete evaluation facts -/

lemma tierConfigOrMid_mid : tierConfigOrMid "mid" = midTierConfig := rfl

lemma apply_lifecycle_maturity (p : ℚ) :
    apply_lifecycle_adjustment p "maturity" DEFAULT_RULES = p := by
  simp only [apply_lifecycle_adjustment, DEFAULT_RULES]
  rw [if_neg (by decide), if_neg (by decide), if_neg (by decide), if_pos (by decide)]
  norm_num

lemma apply_comp_off (p avg : ℚ) :
    apply_competition_adjustment p avg false DEFAULT_RULES = p := rfl

lemma predict_zero (b : ℚ) (t cat lc : String) (avg : ℚ) (oos : Bool) (d : ℚ) :
    predict_adjustment zeroModel b t cat lc avg oos d = 0 := rfl

lemma pyRound_eval_c1 : pyRound (23069/200 : ℚ) = 115 := by
  unfold pyRound
  have hf : ⌊(23069/200 : ℚ)⌋ = 115 := by norm_num [Int.floor_eq_iff]
  rw [if_neg (by rw [hf]; norm_num), round_eq,
    show (23069/200 : ℚ) + 1/2 = 23169/200 by norm_num]
  norm_num [Int.floor_eq_iff]

/-! Section: Claim C1 (margin floor on the returned price field) -/

/-- Claim C1, counterexample to the claim as stated: with cost 1.003, tier
"mid", ml_weight 0 and base price 1, the floor is 1.15345 but the
`recommended_price` field is `round(1.15345, 2) = 1.15`, strictly below
`cost * (1 + min_margin_pct)`.  Rounding to cents can land below the floor. -/
theorem recommended_price_below_floor_cex :
    recPrice (testEngine.get_recommendation "P" 1 (1003/1000) "mid" "Other" "maturity" 0 false 1)
      < (1003/1000) * (1 + (tierConfigOrMid "mid").min_margin_pct) := by
  have hd1 : apply_demand_adjustment 1 1 DEFAULT_RULES = 1 := by
    simp only [apply_demand_adjustment]
    rw [if_neg (by norm_num), if_neg (by norm_num)]
  have hrp : calculate_rules_price 1 (1003/1000) "mid" "maturity" 1 0 false = 23069/20000 := by
    simp only [calculate_rules_price, enforce_boundaries, tierConfigOrMid_mid, midTierConfig,
      hd1, apply_lifecycle_maturity, apply_comp_off]
    norm_num
  have hpre : hybridPricePre 0 1 (23069/20000) 0 = 23069/20000 := by
    unfold hybridPricePre
    norm_num
  simp only [PricingEngine.get_recommendation, recPrice, testEngine, zeroModel, if_neg
    (show ¬((1:ℚ) = 0) by norm_num), hrp, predict_zero, hpre, tierConfigOrMid_mid, midTierConfig]
  rw [show max (23069/20000 : ℚ) ((1003/1000) * (1 + 0.15)) = 23069/20000 by norm_num,
    show round2 (23069/20000 : ℚ) = (pyRound ((23069/20000) * 100 : ℚ) : ℚ) / 100 from rfl,
    show ((23069/20000 : ℚ) * 100) = 23069/200 by norm_num, pyRound_eval_c1]
  norm_num

/-- Claim C1, amended: the floor-enforced hybrid price is rounded to two
decimals before being stored in `recommended_price`, so the returned field
is bounded below by the margin floor minus half a cent, for every engine,
every model, and every input that does not raise (`base_price ≠ 0`);
neither `cost > 0` nor `ml_weight ∈ [0, 1]` is needed. -/
theorem recommended_price_ge_floor_minus_rounding (e : PricingEngine) (n : String)
    (b c : ℚ) (t cat lc : String) (avg : ℚ) (oos : Bool) (d : ℚ) (hb : b ≠ 0) :
    c * (1 + (tierConfigOrMid t).min_margin_pct) - 1/200
      ≤ recPrice (e.get_recommendation n b c t cat lc avg oos d) := by
  simp only [PricingEngine.get_recommendation, if_neg hb, recPrice]
  refine le_trans ?_ (round2_ge_self_sub _)
  exact sub_le_sub_right (le_max_right _ _) _

/-- Claim C1, witness for the amended theorem at a concrete input. -/
theorem recommended_price_ge_floor_minus_rounding_witness :
    (1 : ℚ) ≠ 0
    ∧ (1 : ℚ) * (1 + (tierConfigOrMid "mid").min_margin_pct) - 1/200
        ≤ recPrice (testEngine.get_recommendation "P" 1 1 "mid" "Other" "maturity" 0 false 1) :=
  ⟨by norm_num,
    recommended_price_ge_floor_minus_rounding testEngine "P" 1 1 "mid" "Other" "maturity" 0 false 1
      (by norm_num)⟩

/-! Section: Claim C2 (behaviour at non-positive base price) -/

/-- Claim C2, counterexample to the claim as stated: a call with
`base_price = 0` does not return a record at all — the unguarded division
`(rules_price - base_price) / base_price` raises `ZeroDivisionError`
(modelled as `none`), instead of yielding zeroed adjustment fields. -/
theorem zero_base_price_raises :
    testEngine.get_recommendation "P" 0 1 "mid" "Other" "maturity" 0 false 1 = none := by
  unfold PricingEngine.get_recommendation
  simp

/-- Claim C2, amended: `get_recommendation` returns a record exactly when
`base_price ≠ 0`; at `base_price = 0` it raises, and negative base prices
are accepted (the percentage fields are then computed by the ordinary
formulas, not forced to zero). -/
theorem raises_iff_base_zero (e : PricingEngine) (n : String) (b c : ℚ)
    (t cat lc : String) (avg : ℚ) (oos : Bool) (d : ℚ) :
    (e.get_recommendation n b c t cat lc avg oos d).isSome ↔ b ≠ 0 := by
  unfold PricingEngine.get_recommendation
  by_cases hb : b = 0 <;> simp [hb]

/-! Section: Claim C3 (blend boundary weights) -/

/-- Claim C3: with `ml_weight = 0` the pre-floor hybrid price equals the rule
price exactly, and with `ml_weight = 1` it equals
`base_price * (1 + model_adjustment)`, for every input with positive base
price and any model adjustment. -/
theorem blend_boundary (b c : ℚ) (t lc : String) (d avg : ℚ) (oos : Bool) (ma : ℚ)
    (hb : 0 < b) :
    hybridPricePre 0 b (calculate_rules_price b c t lc d avg oos) ma
        = calculate_rules_price b c t lc d avg oos
    ∧ hybridPricePre 1 b (calculate_rules_price b c t lc d avg oos) ma = b * (1 + ma) := by
  unfold hybridPricePre
  constructor
  · field_simp
  · ring

/-- Claim C3, witness at a concrete input. -/
theorem blend_boundary_witness :
    (0 : ℚ) < 2
    ∧ (hybridPricePre 0 2 (calculate_rules_price 2 1 "mid" "maturity" 1 0 false) (1/4)
          = calculate_rules_price 2 1 "mid" "maturity" 1 0 false
        ∧ hybridPricePre 1 2 (calculate_rules_price 2 1 "mid" "maturity" 1 0 false) (1/4)
          = 2 * (1 + 1/4)) :=
  ⟨by norm_num, blend_boundary 2 1 "mid" "maturity" 1 0 false (1/4) (by norm_num)⟩

/-! Section: Claim C4 (pipeline order and shape) -/

/-- Claim C4: `calculate_rules_price` is exactly the demand, lifecycle and
competition stages composed in that fixed order, each stage multiplying the
running price by a factor independent of it, with the margin floor
`max(price, cost * (1 + min_margin_pct))` applied last, for every input. -/
theorem rules_pipeline_shape (b c : ℚ) (t lc : String) (d avg : ℚ) (oos : Bool) :
    calculate_rules_price b c t lc d avg oos
      = max (apply_competition_adjustment
              (apply_lifecycle_adjustment (apply_demand_adjustment b d DEFAULT_RULES) lc
                DEFAULT_RULES)
              avg oos DEFAULT_RULES)
            (c * (1 + (tierConfigOrMid t).min_margin_pct))
    ∧ (∀ p : ℚ, apply_demand_adjustment p d DEFAULT_RULES
          = p * apply_demand_adjustment 1 d DEFAULT_RULES)
    ∧ (∀ p : ℚ, apply_lifecycle_adjustment p lc DEFAULT_RULES
          = p * apply_lifecycle_adjustment 1 lc DEFAULT_RULES)
    ∧ (∀ p : ℚ, apply_competition_adjustment p avg oos DEFAULT_RULES
          = p * apply_competition_adjustment 1 avg oos DEFAULT_RULES) :=
  ⟨rfl, fun p => apply_demand_mul p d, fun p => apply_lifecycle_mul p lc,
    fun p => apply_comp_mul p avg oos⟩

/-! Section: Claim C5 (monotonicity in the demand index) -/

/-- Claim C5, counterexample to the claim as stated: on the range
`demand_index ≤ 1.0` the rule price is strictly increasing in the demand
index (95 at 0.5 versus 99 at 0.9), so it is not non-increasing there. -/
theorem rules_price_increases_below_baseline :
    calculate_rules_price 100 10 "mid" "maturity" (1/2) 10 false
      < calculate_rules_price 100 10 "mid" "maturity" (9/10) 10 false := by
  have hd1 : apply_demand_adjustment 100 (1/2) DEFAULT_RULES = 95 := by
    simp only [apply_demand_adjustment, DEFAULT_RULES, _clamp]
    rw [if_neg (by norm_num), if_pos (by norm_num)]
    norm_num
  have hd2 : apply_demand_adjustment 100 (9/10) DEFAULT_RULES = 99 := by
    simp only [apply_demand_adjustment, DEFAULT_RULES, _clamp]
    rw [if_neg (by norm_num), if_pos (by norm_num)]
    norm_num
  have h1 : calculate_rules_price 100 10 "mid" "maturity" (1/2) 10 false = 95 := by
    simp only [calculate_rules_price, enforce_boundaries, tierConfigOrMid_mid, midTierConfig,
      hd1, apply_lifecycle_maturity, apply_comp_off]
    norm_num
  have h2 : calculate_rules_price 100 10 "mid" "maturity" (9/10) 10 false = 99 := by
    simp only [calculate_rules_price, enforce_boundaries, tierConfigOrMid_mid, midTierConfig,
      hd2, apply_lifecycle_maturity, apply_comp_off]
    norm_num
  rw [h1, h2]
  norm_num

/-- Claim C5, amended: with a non-negative base price the rule price is
non-decreasing in the demand index everywhere — on `demand_index ≥ 1.0` as
claimed, but on `demand_index ≤ 1.0` it is likewise non-decreasing (lower
demand gives a larger discount), not non-increasing. -/
theorem rules_price_monotone_in_demand (b c : ℚ) (t lc : String) (avg : ℚ) (oos : Bool)
    {d d' : ℚ} (hb : 0 ≤ b) (hd : d ≤ d') :
    calculate_rules_price b c t lc d avg oos ≤ calculate_rules_price b c t lc d' avg oos := by
  simp only [calculate_rules_price, enforce_boundaries]
  exact max_le_max
    (apply_comp_mono avg oos (apply_lifecycle_mono lc (apply_demand_mono b hb hd)))
    le_rfl

/-- Claim C5, witness for the amended theorem at a concrete input. -/
theorem rules_price_monotone_in_demand_witness :
    (0 : ℚ) ≤ 100 ∧ (1/2 : ℚ) ≤ 9/10
    ∧ calculate_rules_price 100 10 "mid" "maturity" (1/2) 10 false
        ≤ calculate_rules_price 100 10 "mid" "maturity" (9/10) 10 false :=
  ⟨by norm_num, by norm_num,
    rules_price_monotone_in_demand 100 10 "mid" "maturity" 10 false (by norm_num) (by norm_num)⟩

/-! Section: Claim C6 (unknown tier fallback) -/

/-- Claim C6, counterexample to the claim as stated: the returned record
echoes the raw tier string in its `tier` field, so the recommendation for
an unknown tier is not equal to the recommendation for "mid". -/
theorem unknown_tier_not_identical_cex :
    testEngine.get_recommendation "P" 10 7 "unknown" "Other" "maturity" 10 false 1
      ≠ testEngine.get_recommendation "P" 10 7 "mid" "Other" "maturity" 10 false 1 := by
  intro h
  simp only [PricingEngine.get_recommendation,
    if_neg (show ¬((10:ℚ) = 0) by norm_num)] at h
  rw [Option.some.injEq] at h
  exact absurd (congrArg Recommendation.tier h) (by decide)

/-- Claim C6, amended: a tier string whose lowercase form is outside
{low, mid, high, premium} never raises beyond the base-price guard and
yields exactly the "mid" recommendation except for the echoed `tier`
field, for every engine and every model. -/
theorem unknown_tier_matches_mid_except_echo (e : PricingEngine) (n : String) (b c : ℚ)
    (t cat lc : String) (avg : ℚ) (oos : Bool) (d : ℚ)
    (h1 : pyLower t ≠ "low") (h2 : pyLower t ≠ "mid")
    (h3 : pyLower t ≠ "high") (h4 : pyLower t ≠ "premium") :
    e.get_recommendation n b c t cat lc avg oos d
      = Option.map (setTier t) (e.get_recommendation n b c "mid" cat lc avg oos d) := by
  have hcfg : tierConfigOrMid t = midTierConfig := by
    unfold tierConfigOrMid TIER_CONFIGS
    rw [if_neg h1, if_neg h2, if_neg h3, if_neg h4]
    rfl
  have henc : tierEncode t = tierEncode "mid" := by
    have e1 : t ≠ "High" := fun he => h3 (by rw [he]; rfl)
    have e2 : t ≠ "Low" := fun he => h1 (by rw [he]; rfl)
    have e3 : t ≠ "Mid" := fun he => h2 (by rw [he]; rfl)
    have e4 : t ≠ "Premium" := fun he => h4 (by rw [he]; rfl)
    unfold tierEncode
    rw [if_neg e1, if_neg e2, if_neg e3, if_neg e4]
    rfl
  have hcrp : calculate_rules_price b c t lc d avg oos
      = calculate_rules_price b c "mid" lc d avg oos := by
    simp only [calculate_rules_price, enforce_boundaries, hcfg, tierConfigOrMid_mid]
  have hpred : predict_adjustment e.ml_model b t cat lc avg oos d
      = predict_adjustment e.ml_model b "mid" cat lc avg oos d := by
    simp only [predict_adjustment, henc]
  by_cases hb : b = 0
  · simp [PricingEngine.get_recommendation, hb]
  · simp only [PricingEngine.get_recommendation, if_neg hb, hcrp, hpred,
      SmartTagEngine.generate_tags, marginCheck, hcfg, tierConfigOrMid_mid,
      Option.map_some', setTier]

/-- Claim C6, witness for the amended theorem at a concrete input. -/
theorem unknown_tier_matches_mid_witness :
    (pyLower "unknown" ≠ "low" ∧ pyLower "unknown" ≠ "mid"
      ∧ pyLower "unknown" ≠ "high" ∧ pyLower "unknown" ≠ "premium")
    ∧ testEngine.get_recommendation "P" 10 7 "unknown" "Other" "maturity" 10 false 1
        = Option.map (setTier "unknown")
            (testEngine.get_recommendation "P" 10 7 "mid" "Other" "maturity" 10 false 1) :=
  ⟨⟨by decide, by decide, by decide, by decide⟩,
    unknown_tier_matches_mid_except_echo testEngine "P" 10 7 "unknown" "Other" "maturity" 10 false 1
      (by decide) (by decide) (by decide) (by decide)⟩

/-! Section: Claim C7 (price change percentage versus the rounded price) -/

/-- Claim C7, counterexample to the claim as stated: at base price 3 and
demand 1.0331 the final hybrid price is 3.154965, the stored
`price_change_pct` is `round(5.1655, 1) = 5.2`, but recomputing the formula
from the stored `recommended_price = 3.15` gives exactly 5 — the field is
not an exact function of the other returned fields. -/
theorem price_change_pct_not_exact_cex :
    recChangePct
        (testEngine.get_recommendation "P" 3 1 "mid" "Other" "maturity" 0 false (10331/10000))
      ≠ (recPrice
            (testEngine.get_recommendation "P" 3 1 "mid" "Other" "maturity" 0 false (10331/10000))
          - 3) / 3 * 100 := by
  have hd1 : apply_demand_adjustment 3 (10331/10000) DEFAULT_RULES = 630993/200000 := by
    simp only [apply_demand_adjustment, DEFAULT_RULES, _clamp]
    rw [if_pos (by norm_num)]
    norm_num
  have hrp : calculate_rules_price 3 1 "mid" "maturity" (10331/10000) 0 false = 630993/200000 := by
    simp only [calculate_rules_price, enforce_boundaries, tierConfigOrMid_mid, midTierConfig,
      hd1, apply_lifecycle_maturity, apply_comp_off]
    norm_num
  have hpre : hybridPricePre 0 3 (630993/200000) 0 = 630993/200000 := by
    unfold hybridPricePre
    norm_num
  have hmax : max (630993/200000 : ℚ) (1 * (1 + 0.15)) = 630993/200000 := by norm_num
  have hpy2 : pyRound ((630993/200000 : ℚ) * 100) = 315 := by
    rw [show ((630993/200000 : ℚ) * 100) = 630993/2000 by norm_num]
    unfold pyRound
    have hf : ⌊(630993/2000 : ℚ)⌋ = 315 := by norm_num [Int.floor_eq_iff]
    rw [if_neg (by rw [hf]; norm_num), round_eq,
      show (630993/2000 : ℚ) + 1/2 = 631993/2000 by norm_num]
    norm_num [Int.floor_eq_iff]
  have hpy1 : pyRound (((630993/200000 : ℚ) - 3) / 3 * 100 * 10) = 52 := by
    rw [show (((630993/200000 : ℚ) - 3) / 3 * 100 * 10) = 10331/200 by norm_num]
    unfold pyRound
    have hf : ⌊(10331/200 : ℚ)⌋ = 51 := by norm_num [Int.floor_eq_iff]
    rw [if_neg (by rw [hf]; norm_num), round_eq,
      show (10331/200 : ℚ) + 1/2 = 10431/200 by norm_num]
    norm_num [Int.floor_eq_iff]
  simp only [PricingEngine.get_recommendation, recPrice, recChangePct, testEngine, zeroModel,
    if_neg (show ¬((3:ℚ) = 0) by norm_num), hrp, predict_zero, hpre, tierConfigOrMid_mid,
    midTierConfig, hmax]
  rw [show round1 (((630993/200000 : ℚ) - 3) / 3 * 100)
        = (pyRound (((630993/200000 : ℚ) - 3) / 3 * 100 * 10) : ℚ) / 10 from rfl, hpy1]
  rw [show round2 (630993/200000 : ℚ)
        = (pyRound ((630993/200000 : ℚ) * 100) : ℚ) / 100 from rfl, hpy2]
  norm_num

/-- The stored one-decimal change percentage differs from the percentage
recomputed from the two-decimal rounded price by at most the two rounding
errors combined. -/
lemma round_round_close (H b : ℚ) (hb : 0 < b) :
    |round1 ((H - b) / b * 100) - (round2 H - b) / b * 100| ≤ 1/20 + 1/(2*b) := by
  have h1 := round1_abs ((H - b) / b * 100)
  have h2 : |H - round2 H| ≤ 1/200 := by
    rw [abs_sub_comm]
    exact round2_abs H
  have key : (H - b) / b * 100 - (round2 H - b) / b * 100 = (H - round2 H) * (100 / b) := by
    field_simp
    ring
  calc |round1 ((H - b) / b * 100) - (round2 H - b) / b * 100|
      = |(round1 ((H - b) / b * 100) - (H - b) / b * 100)
          + ((H - b) / b * 100 - (round2 H - b) / b * 100)| := by rw [sub_add_sub_cancel]
    _ ≤ |round1 ((H - b) / b * 100) - (H - b) / b * 100|
          + |(H - b) / b * 100 - (round2 H - b) / b * 100| := abs_add _ _
    _ ≤ 1/20 + 1/(2*b) := by
        refine add_le_add h1 ?_
        rw [key, abs_mul, abs_of_pos (show (0:ℚ) < 100 / b by positivity)]
        calc |H - round2 H| * (100 / b) ≤ (1/200) * (100 / b) :=
              mul_le_mul_of_nonneg_right h2 (by positivity)
          _ = 1/(2*b) := by field_simp; ring

/-- Claim C7, amended: `price_change_pct` equals
`(recommended_price - base_price) / base_price * 100` only up to the two
independent roundings — to one decimal for the percentage and to two
decimals for the price — with total error at most `1/20 + 1/(2 * base_price)`
for every input with positive base price. -/
theorem price_change_pct_rounding_bound (e : PricingEngine) (n : String) (b c : ℚ)
    (t cat lc : String) (avg : ℚ) (oos : Bool) (d : ℚ) (hb : 0 < b) :
    |recChangePct (e.get_recommendation n b c t cat lc avg oos d)
        - (recPrice (e.get_recommendation n b c t cat lc avg oos d) - b) / b * 100|
      ≤ 1/20 + 1/(2*b) := by
  simp only [PricingEngine.get_recommendation, if_neg (ne_of_gt hb), recPrice, recChangePct]
  exact round_round_close _ b hb

/-- Claim C7, witness for the amended theorem at a concrete input. -/
theorem price_change_pct_rounding_bound_witness :
    (0 : ℚ) < 3
    ∧ |recChangePct (testEngine.get_recommendation "P" 3 1 "mid" "Other" "maturity" 0 false 1)
          - (recPrice (testEngine.get_recommendation "P" 3 1 "mid" "Other" "maturity" 0 false 1)
                - 3) / 3 * 100|
        ≤ 1/20 + 1/(2*3) :=
  ⟨by norm_num,
    price_change_pct_rounding_bound testEngine "P" 3 1 "mid" "Other" "maturity" 0 false 1
      (by norm_num)⟩

/-! Section: Claim C8 (out-of-stock uplift) -/

/-- Claim C8: with the default rules the competition stage multiplies the
running price by exactly `1 + 0.075` when the market is out of stock (the
midpoint of the bump range), leaves it unchanged otherwise, and in
`calculate_rules_price` this stage runs before boundary enforcement. -/
theorem oos_uplift_exact (p avg b c : ℚ) (t lc : String) (d : ℚ) :
    apply_competition_adjustment p avg true DEFAULT_RULES = p * (1 + 0.075)
    ∧ apply_competition_adjustment p avg false DEFAULT_RULES = p
    ∧ calculate_rules_price b c t lc d avg true
        = enforce_boundaries
            (apply_competition_adjustment
              (apply_lifecycle_adjustment (apply_demand_adjustment b d DEFAULT_RULES) lc
                DEFAULT_RULES)
              avg true DEFAULT_RULES)
            c t DEFAULT_RULES := by
  refine ⟨?_, rfl, rfl⟩
  unfold apply_competition_adjustment DEFAULT_RULES
  norm_num

/-! Section: Claim C9 (smart tag generation) -/

/-- Claim C9: `generate_tags` is exactly the concatenation of its five
independent checks in source order (lifecycle, out-of-stock, demand,
competitive position, margin watch), and the resulting list never contains
the same tag twice, for every input. -/
theorem tags_follow_checks (lc : String) (d m p avg : ℚ) (t : String) (oos : Bool) :
    SmartTagEngine.generate_tags lc d m p avg t oos
      = lifecycleCheck lc ++ oosCheck oos ++ demandCheck d
          ++ leaderCheck p avg ++ marginCheck m t
    ∧ (SmartTagEngine.generate_tags lc d m p avg t oos).Nodup := by
  refine ⟨rfl, ?_⟩
  unfold SmartTagEngine.generate_tags lifecycleCheck oosCheck demandCheck leaderCheck marginCheck
  split_ifs <;> decide

/-! Section: Claim C10 (singleton factory) -/

/-- Claim C10: after a first call with weight w1, a second call to
`get_pricing_engine` with any weight w2 returns the engine built by the
first call unchanged, whose weight is still w1. -/
theorem singleton_ignores_second_weight (gbModel : MLFeatures → ℚ) (w1 w2 : ℚ) :
    (get_pricing_engine gbModel w2 (get_pricing_engine gbModel w1 none).2).1
      = (get_pricing_engine gbModel w1 none).1
    ∧ (get_pricing_engine gbModel w2 (get_pricing_engine gbModel w1 none).2).1.ml_weight = w1 := by
  constructor <;> rfl

end CGPricing
